import Mathlib

/-!
Verification of the WaterHarvesting calculation engine.

This file gives a shallow embedding of the computational core of
`rainwater_utils.py` and of the local calculation block of
`rainwater__pipeline.py`, over exact rationals (`ℚ`), and proves or refutes
the specification claims about it.  Python floats are modelled as rationals;
the only square root in the embedded code (`roof_area ** 0.5`, used solely
for the gutter-length estimate) is passed in explicitly, and the recharge
sizer is embedded tracking the squares of the solved diameters, since each
diameter is used downstream only through its square.
-/

namespace WaterHarvesting

/-- System efficiency constant `EFFICIENCY = 0.80` (rainwater_utils.py line 12). -/
def EFFICIENCY : ℚ := 80 / 100

/-- `DRINKING_NEED = 5` liters per person per day (line 15). -/
def DRINKING_NEED : ℚ := 5

/-- `DOMESTIC_NEED = 100` liters per person per day (line 16). -/
def DOMESTIC_NEED : ℚ := 100

/-- `GARDEN_NEED = 5` liters per m² per day during dry months (line 17). -/
def GARDEN_NEED : ℚ := 5

/-- `RECHARGE_FACTOR = 0.7`, fraction of water suitable for recharge (line 20). -/
def RECHARGE_FACTOR : ℚ := 7 / 10

/-- Per-soil permeability entry of the `SOIL_PERMEABILITY` table (lines 21-29). -/
structure SoilProperties where
  factor : ℚ
  infiltration_rate : ℚ
deriving DecidableEq

/-- The `SOIL_PERMEABILITY` table with the `.get(soil_type, "Unknown")` lookup
used by the recharge sizer (lines 21-29 and 754): unknown soil names fall back
to the `"Unknown"` entry (factor 0.8, infiltration 12 mm/hr). -/
def SOIL_PERMEABILITY (soil_type : String) : SoilProperties :=
  if soil_type = "Sandy" then ⟨12 / 10, 30⟩
  else if soil_type = "Sandy Loam" then ⟨1, 20⟩
  else if soil_type = "Loam" then ⟨8 / 10, 12⟩
  else if soil_type = "Clay Loam" then ⟨6 / 10, 6⟩
  else if soil_type = "Clay" then ⟨4 / 10, 2⟩
  else if soil_type = "Silt" then ⟨5 / 10, 4⟩
  else ⟨8 / 10, 12⟩

/-- Water source keys of the `INDIAN_WATER_COSTS` dict (lines 66-70). -/
inductive WaterSource
  | municipal
  | tanker
  | borewell
deriving DecidableEq

/-- The `INDIAN_WATER_COSTS` table, INR per m³ (lines 66-70). -/
def INDIAN_WATER_COSTS : WaterSource → ℚ
  | WaterSource.municipal => 15
  | WaterSource.tanker => 45
  | WaterSource.borewell => 8

/-- The three system tiers keyed in the `SYSTEM_COSTS` dict (lines 32-63). -/
inductive SystemType
  | basic
  | intermediate
  | advanced
deriving DecidableEq

/-- One tier of the `SYSTEM_COSTS` dict.  Keys that a tier's Python dict does
not contain are represented as 0, matching the `costs.get(key, 0)` reads in
`calculate_system_costs`; `has_pump_system` records whether the key
`"pump_system"` is present (used by the `"pump_system" in costs` test). -/
structure SystemCostTable where
  tank_cost_per_m3 : ℚ
  piping_cost : ℚ
  gutters_cost_per_m : ℚ
  first_flush_diverter : ℚ
  basic_filter : ℚ
  sediment_filter : ℚ
  carbon_filter : ℚ
  multi_stage_filter : ℚ
  uv_sterilizer : ℚ
  pump_system : ℚ
  installation : ℚ
  maintenance_annual : ℚ
  has_pump_system : Bool
deriving DecidableEq

/-- The `SYSTEM_COSTS` table (lines 32-63). -/
def SYSTEM_COSTS : SystemType → SystemCostTable
  | SystemType.basic =>
      ⟨15000, 35000, 1500, 8000, 6000, 0, 0, 0, 0, 0, 45000, 3000, false⟩
  | SystemType.intermediate =>
      ⟨22000, 55000, 2200, 12000, 0, 15000, 12000, 0, 0, 0, 75000, 5500, false⟩
  | SystemType.advanced =>
      ⟨35000, 85000, 3000, 18000, 0, 0, 0, 35000, 25000, 40000, 120000, 10000, true⟩

/-- The record returned by `calculate_system_costs` (lines 289-329): the
itemized initial costs, their total, the itemized annual costs, their total,
and the tier. -/
structure CostData where
  storage_tank : ℚ
  gutters_downspouts : ℚ
  piping : ℚ
  first_flush_diverter : ℚ
  filtration : ℚ
  uv_sterilizer : ℚ
  pump_system : ℚ
  installation : ℚ
  total_initial : ℚ
  maintenance : ℚ
  filter_replacement : ℚ
  electricity : ℚ
  water_testing : ℚ
  total_annual : ℚ
  system_type : SystemType
deriving DecidableEq

/-- `calculate_system_costs(roof_area, storage_capacity, system_type)`
(lines 289-329).  The source computes
`gutter_length = 2 * (roof_area ** 0.5) * 2`; `roof_area` enters the function
only through that square root, so the square root is passed explicitly as
`sqrt_roof_area` (ℚ has no square root).  No input validation is performed:
the function is total and builds the full record for any inputs. -/
def calculate_system_costs (storage_capacity : ℚ) (system_type : SystemType)
    (sqrt_roof_area : ℚ) : CostData :=
  let costs := SYSTEM_COSTS system_type
  let tank_cost := storage_capacity * costs.tank_cost_per_m3
  let gutter_length := 2 * sqrt_roof_area * 2
  let gutter_cost := gutter_length * costs.gutters_cost_per_m
  let filtration := costs.basic_filter + costs.sediment_filter +
    costs.carbon_filter + costs.multi_stage_filter
  let total_initial := tank_cost + gutter_cost + costs.piping_cost +
    costs.first_flush_diverter + filtration + costs.uv_sterilizer +
    costs.pump_system + costs.installation
  let maintenance := costs.maintenance_annual
  let filter_replacement := costs.maintenance_annual * (4 / 10)
  let electricity : ℚ := if costs.has_pump_system then 3500 else 0
  let water_testing : ℚ := if system_type = SystemType.advanced then 2500 else 0
  let total_annual := maintenance + filter_replacement + electricity + water_testing
  ⟨tank_cost, gutter_cost, costs.piping_cost, costs.first_flush_diverter,
   filtration, costs.uv_sterilizer, costs.pump_system, costs.installation,
   total_initial, maintenance, filter_replacement, electricity, water_testing,
   total_annual, system_type⟩

/-- `npv_at_rate(rate, cfs)` from `calculate_irr_approximation` (lines 409-410):
`sum(cf / (1 + rate) ** i for i, cf in enumerate(cfs))`. -/
def npv_at_rate (rate : ℚ) (cfs : List ℚ) : ℚ :=
  (cfs.enum.map (fun p => p.2 / (1 + rate) ^ p.1)).sum

/-- The bisection loop of `calculate_irr_approximation` (lines 412-423): up to
`fuel` iterations; each iteration computes `mid = (low + high) / 2`, returns
`mid` if `|npv| < 100`, otherwise narrows the bracket; after the last
iteration the last computed `mid` is returned. -/
def irr_bisection (cfs : List ℚ) : ℕ → ℚ → ℚ → ℚ
  | 0, low, high => (low + high) / 2
  | fuel + 1, low, high =>
      let mid := (low + high) / 2
      let npv := npv_at_rate mid cfs
      if |npv| < 100 then mid
      else if fuel = 0 then mid
      else if npv > 0 then irr_bisection cfs fuel mid high
      else irr_bisection cfs fuel low mid

/-- `calculate_irr_approximation(cash_flows)` (lines 406-425): binary search
for the IRR over `[-0.99, 2.0]` with 100 iterations.  The embedded computation
is total, so the source's `except: return 0.0` branch (which guards only pure
arithmetic) is unreachable and has no counterpart here. -/
def calculate_irr_approximation (cash_flows : List ℚ) : ℚ :=
  irr_bisection cash_flows 100 (-99 / 100) 2

/-- The payback-search loop shared by the simple and the discounted payback
computations of `calculate_financial_metrics` (lines 367-384): iterate years
`1..n`, accumulate the per-year amount `f year`, and record the first year at
which the accumulator reaches `total_initial`.  Returns the final accumulator
and the recorded year (if any). -/
def payback_loop (total_initial : ℚ) (f : ℕ → ℚ) : ℕ → ℚ × Option ℕ
  | 0 => (0, none)
  | n + 1 =>
      let p := payback_loop total_initial f n
      let cum := p.1 + f (n + 1)
      (cum,
        match p.2 with
        | some y => some y
        | none => if total_initial ≤ cum then some (n + 1) else none)

/-- `∑ k = 1..y, f k`: the cumulative net benefit after `y` years. -/
def cumulative_net (f : ℕ → ℚ) (y : ℕ) : ℚ :=
  ∑ k ∈ Finset.Icc 1 y, f k

/-- The record returned by `calculate_financial_metrics` (lines 394-404).  The
`yearly_analysis` ledger (a per-year echo of the same quantities) is not
carried in the embedding. -/
structure FinancialMetrics where
  npv : ℚ
  irr : ℚ
  payback_period : Option ℕ
  discounted_payback : Option ℕ
  benefit_cost_ratio : ℚ
  total_benefits_pv : ℚ
  total_costs_pv : ℚ
  analysis_period : ℕ
deriving DecidableEq

/-- `calculate_financial_metrics(cost_data, annual_savings, water_cost_increase,
discount_rate, analysis_period)` (lines 331-404).  Of the cost record only
`total_initial` and `total_annual` are read, so those are the parameters.
Per year `y` in `1..analysis_period`:
`annual_benefit = annual_savings * (1 + water_cost_increase) ** y`,
`annual_cost = total_annual`, `net = benefit - cost`.  NPV discounts the cash
flow list (year 0 = `-total_initial`); the two payback searches record the
first year whose cumulative (respectively discounted cumulative) net reaches
`total_initial`; the benefit/cost ratio divides the benefit PV by the cost PV
when the latter is positive and is 0 otherwise. -/
def calculate_financial_metrics (total_initial total_annual annual_savings : ℚ)
    (water_cost_increase discount_rate : ℚ) (analysis_period : ℕ) :
    FinancialMetrics :=
  let net := fun y : ℕ => annual_savings * (1 + water_cost_increase) ^ y - total_annual
  let cash_flows : List ℚ :=
    -total_initial :: (List.range analysis_period).map (fun i => net (i + 1))
  let npv := npv_at_rate discount_rate cash_flows
  let irr := calculate_irr_approximation cash_flows
  let payback_period := (payback_loop total_initial net analysis_period).2
  let discounted_net := fun y : ℕ => net y / (1 + discount_rate) ^ y
  let discounted_payback := (payback_loop total_initial discounted_net analysis_period).2
  let total_benefits_pv :=
    ((List.range analysis_period).map
      (fun i => annual_savings * (1 + water_cost_increase) ^ (i + 1) /
        (1 + discount_rate) ^ (i + 1))).sum
  let total_costs_pv := total_initial +
    ((List.range analysis_period).map
      (fun i => total_annual / (1 + discount_rate) ^ (i + 1))).sum
  let bcr := if total_costs_pv > 0 then total_benefits_pv / total_costs_pv else 0
  ⟨npv, irr, payback_period, discounted_payback, bcr, total_benefits_pv,
   total_costs_pv, analysis_period⟩

/-- The fields of the results dict of `calculate_water_metrics` (lines
511-533) that the claims are about.  The nested `cost_data`,
`financial_metrics` and `environmental_impact` entries are computed by the
separately embedded `calculate_system_costs` (which needs the square root of
the roof area) and `calculate_financial_metrics`, and are not duplicated
here. -/
structure WaterMetrics where
  monthly_harvest_m3 : List ℚ
  annual_rainfall_historical : ℚ
  annual_harvest_historical : ℚ
  annual_rainfall_future : ℚ
  annual_harvest_future : ℚ
  drinking_demand : ℚ
  domestic_demand : ℚ
  garden_demand : ℚ
  total_demand : ℚ
  historical_coverage : ℚ
  future_coverage : ℚ
  dry_months_historical : ℕ
  dry_months_future : ℕ
  annual_savings_historical : ℚ
  annual_savings_future : ℚ
  recommended_storage : ℚ
  system_type : SystemType
deriving DecidableEq

/-- `calculate_water_metrics(historical_df, forecast_df, roof_area,
household_size, garden_area, water_source)` (lines 451-533).  The historical
dataframe is embedded as its `Historical_Rainfall_mm` column (a list of
monthly values, mm) and the forecast dataframe as its optional
`Predicted_Rainfall_mm` column.  Harvested liters per month are
`rainfall * roof_area * EFFICIENCY`, converted to m³ by `/ 1000`; no runoff
coefficient appears in the source.  Coverage is `min(100, harvest / demand *
100)` guarded by `total_demand > 0` (and additionally `future_harvest > 0`
for the future figure), else 0.  Dry months count entries below 30 mm. -/
def calculate_water_metrics (historical : List ℚ) (forecast : Option (List ℚ))
    (roof_area household_size garden_area : ℚ) (water_source : WaterSource) :
    WaterMetrics :=
  let water_cost := INDIAN_WATER_COSTS water_source
  let harvested_liters := historical.map (fun r => r * roof_area * EFFICIENCY)
  let harvested_m3 := harvested_liters.map (fun x => x / 1000)
  let annual_rainfall_historical := historical.sum
  let annual_harvest_historical := harvested_m3.sum
  let future_rainfall : ℚ :=
    match forecast with
    | none => 0
    | some f => f.sum
  let future_harvest : ℚ :=
    match forecast with
    | none => 0
    | some f => ((f.map (fun r => r * roof_area * EFFICIENCY)).map (fun x => x / 1000)).sum
  let drinking_demand := household_size * DRINKING_NEED * 365 / 1000
  let domestic_demand := household_size * DOMESTIC_NEED * 365 / 1000
  let garden_demand := garden_area * GARDEN_NEED * 180 / 1000
  let total_demand := drinking_demand + domestic_demand + garden_demand
  let historical_coverage : ℚ :=
    if total_demand > 0 then min 100 (annual_harvest_historical / total_demand * 100) else 0
  let future_coverage : ℚ :=
    if total_demand > 0 ∧ future_harvest > 0 then
      min 100 (future_harvest / total_demand * 100)
    else 0
  let dry_months_historical := (historical.filter (fun r => r < 30)).length
  let dry_months_future : ℕ :=
    match forecast with
    | none => 0
    | some f => (f.filter (fun r => r < 30)).length
  let annual_savings_historical := annual_harvest_historical * water_cost
  let annual_savings_future : ℚ :=
    if future_harvest > 0 then future_harvest * water_cost else annual_savings_historical
  let monthly_demand := total_demand / 12
  let recommended_storage :=
    max (monthly_demand * (25 / 10)) (annual_harvest_historical * (2 / 10))
  let avg_harvest : ℚ :=
    if future_harvest > 0 then (annual_harvest_historical + future_harvest) / 2
    else annual_harvest_historical
  let system_type :=
    if avg_harvest < 15 then SystemType.basic
    else if avg_harvest < 40 then SystemType.intermediate
    else SystemType.advanced
  ⟨harvested_m3, annual_rainfall_historical, annual_harvest_historical,
   future_rainfall, future_harvest, drinking_demand, domestic_demand,
   garden_demand, total_demand, historical_coverage, future_coverage,
   dry_months_historical, dry_months_future, annual_savings_historical,
   annual_savings_future, recommended_storage, system_type⟩

/-- The fields of the results record that `assess_feasibility` (lines 683-749)
reads: five scalar inputs, the nullable payback year from the nested
`financial_metrics`, and the future harvest. -/
structure FeasibilityInputs where
  annual_rainfall_historical : ℚ
  annual_harvest_historical : ℚ
  historical_coverage : ℚ
  future_coverage : ℚ
  benefit_cost_ratio : ℚ
  payback_period : Option ℕ
  annual_harvest_future : ℚ
deriving DecidableEq

/-- The rainfall band of `assess_feasibility` (lines 696-702): weight 15,
bands at 800 / 500 / 300 awarding 1, 0.7, 0.4, 0 of the weight. -/
def rainfall_subscore (historical_rainfall : ℚ) : ℚ :=
  if historical_rainfall ≥ 800 then 15
  else if historical_rainfall ≥ 500 then 15 * (7 / 10)
  else if historical_rainfall ≥ 300 then 15 * (4 / 10)
  else 0

/-- The harvest band of `assess_feasibility` (lines 704-711): weight 15,
bands at 25 / 15 / 8. -/
def harvest_subscore (historical_harvest : ℚ) : ℚ :=
  if historical_harvest ≥ 25 then 15
  else if historical_harvest ≥ 15 then 15 * (7 / 10)
  else if historical_harvest ≥ 8 then 15 * (4 / 10)
  else 0

/-- The coverage band of `assess_feasibility` (lines 713-720): applied to
`max(historical_coverage, future_coverage)`, weight 15, bands at 60 / 40 / 20. -/
def coverage_subscore (coverage : ℚ) : ℚ :=
  if coverage ≥ 60 then 15
  else if coverage ≥ 40 then 15 * (7 / 10)
  else if coverage ≥ 20 then 15 * (4 / 10)
  else 0

/-- The economic band of `assess_feasibility` (lines 722-729): weight 25,
bands on the benefit/cost ratio at 1.3 / 1.0 / 0.8. -/
def economic_subscore (bcr : ℚ) : ℚ :=
  if bcr ≥ 13 / 10 then 25
  else if bcr ≥ 1 then 25 * (7 / 10)
  else if bcr ≥ 8 / 10 then 25 * (4 / 10)
  else 0

/-- The payback band of `assess_feasibility` (lines 731-738): weight 15,
bands at 8 / 12 / 18 years.  The Python guard `payback and payback <= 8`
treats both `None` and `0` as falsy, which the `p ≠ 0` conjuncts mirror. -/
def payback_subscore (payback : Option ℕ) : ℚ :=
  match payback with
  | none => 0
  | some p =>
      if p ≠ 0 ∧ p ≤ 8 then 15
      else if p ≠ 0 ∧ p ≤ 12 then 15 * (7 / 10)
      else if p ≠ 0 ∧ p ≤ 18 then 15 * (4 / 10)
      else 0

/-- The future-trend band of `assess_feasibility` (lines 740-747): weight 15,
compares the future harvest against 1.1x / 0.95x / 0.8x of the historical
harvest. -/
def future_trend_subscore (future_harvest historical_harvest : ℚ) : ℚ :=
  if future_harvest > historical_harvest * (11 / 10) then 15
  else if future_harvest > historical_harvest * (95 / 100) then 15 * (7 / 10)
  else if future_harvest > historical_harvest * (8 / 10) then 15 * (4 / 10)
  else 0

/-- `assess_feasibility(results)` (lines 683-749): the six banded sub-scores
are accumulated and the total is clamped by `min(100, score)`. -/
def assess_feasibility (r : FeasibilityInputs) : ℚ :=
  min 100
    (rainfall_subscore r.annual_rainfall_historical +
     harvest_subscore r.annual_harvest_historical +
     coverage_subscore (max r.historical_coverage r.future_coverage) +
     economic_subscore (FeasibilityInputs.benefit_cost_ratio r) +
     payback_subscore r.payback_period +
     future_trend_subscore r.annual_harvest_future r.annual_harvest_historical)

/-- The soil-specific cost multiplier table of
`calculate_recharge_structures_enhanced` (lines 809-816), with `.get(soil_type,
1.0)` fallback. -/
def soil_cost_multiplier (soil_type : String) : ℚ :=
  if soil_type = "Sandy" then 9 / 10
  else if soil_type = "Sandy Loam" then 1
  else if soil_type = "Loam" then 11 / 10
  else if soil_type = "Clay Loam" then 13 / 10
  else if soil_type = "Clay" then 15 / 10
  else if soil_type = "Silt" then 12 / 10
  else 1

/-- The record returned by `calculate_recharge_structures_enhanced` (lines
870-880), flattened: per-structure dimensions, volume, cost and annual
maintenance, plus the recommendation and summary fields.  The pit and tank
diameters are solved by a square root in the source and are used downstream
only through their squares, so their squares are carried
(`recharge_pit_diameter_sq`, `percolation_tank_diameter_sq`); the pit's
filter-layer string list is not carried. -/
structure RechargeDesign where
  recharge_pit_volume : ℚ
  recharge_pit_diameter_sq : ℚ
  recharge_pit_depth : ℚ
  recharge_pit_cost : ℚ
  recharge_pit_maintenance : ℚ
  recharge_trench_volume : ℚ
  recharge_trench_length : ℚ
  recharge_trench_width : ℚ
  recharge_trench_depth : ℚ
  recharge_trench_cost : ℚ
  recharge_trench_maintenance : ℚ
  percolation_tank_volume : ℚ
  percolation_tank_diameter_sq : ℚ
  percolation_tank_depth : ℚ
  percolation_tank_area : ℚ
  percolation_tank_cost : ℚ
  percolation_tank_maintenance : ℚ
  injection_well_volume : ℚ
  injection_well_diameter : ℚ
  injection_well_depth : ℚ
  injection_well_cost : ℚ
  injection_well_maintenance : ℚ
  recommended_structure : String
  recommendation_reason : String
  annual_recharge_potential : ℚ
  soil_infiltration_rate : ℚ
  soil_suitability : String
  total_estimated_cost : ℚ
  annual_maintenance_cost : ℚ
  groundwater_recharge_benefit : ℚ
deriving DecidableEq

/-- `calculate_recharge_structures_enhanced(annual_harvest, soil_type,
rainfall_pattern)` (lines 751-880).  The optional `rainfall_pattern` dict is
embedded as its `monsoon_intensity` value (`none` at the sole call site, line
1227).  The base per-m³ rates are pit 12000, trench 8000, tank 15000, well
25000 INR; note that the injection-well cost multiplies the well DEPTH, not
its volume (line 848).  The recommendation rule is the ordered threshold
ladder of lines 853-868. -/
def calculate_recharge_structures_enhanced (annual_harvest : ℚ)
    (soil_type : String) (rainfall_pattern : Option String) : RechargeDesign :=
  let soil_props := SOIL_PERMEABILITY soil_type
  let recharge_volume := annual_harvest * RECHARGE_FACTOR
  let effective_volume := recharge_volume * soil_props.factor
  let infiltration_rate := soil_props.infiltration_rate
  let sizing_factor : ℚ :=
    match rainfall_pattern with
    | some intensity => if intensity = "high" then 13 / 10 else 1
    | none => 1
  let pit_depth :=
    if infiltration_rate < 5 then (45 / 10) * sizing_factor
    else if infiltration_rate > 20 then 3 * sizing_factor
    else (35 / 10) * sizing_factor
  let pit_diameter_sq := effective_volume * 4 / ((314 / 100) * pit_depth)
  let pit_volume := (314 / 100) * (pit_diameter_sq / 4) * pit_depth
  let trench_depth :=
    if infiltration_rate < 10 then (25 / 10) * sizing_factor else 2 * sizing_factor
  let trench_width : ℚ := if infiltration_rate < 5 then 2 else 15 / 10
  let trench_length := effective_volume / (trench_depth * trench_width)
  let trench_volume := trench_length * trench_width * trench_depth
  let tank_depth := 3 * sizing_factor
  let tank_area := effective_volume / tank_depth
  let tank_diameter_sq := tank_area * 4 / (314 / 100)
  let tank_volume := tank_area * tank_depth
  let well_depth : ℚ := if infiltration_rate < 5 then 15 else 10
  let well_diameter : ℚ := 3 / 10
  let well_volume := (314 / 100) * (well_diameter / 2) ^ 2 * well_depth
  let multiplier := soil_cost_multiplier soil_type
  let pit_cost := pit_volume * 12000 * multiplier
  let pit_maintenance := pit_volume * 12000 * multiplier * (3 / 100)
  let trench_cost := trench_volume * 8000 * multiplier
  let trench_maintenance := trench_volume * 8000 * multiplier * (2 / 100)
  let tank_cost := tank_volume * 15000 * multiplier
  let tank_maintenance := tank_volume * 15000 * multiplier * (4 / 100)
  let well_cost := well_depth * 25000 * multiplier
  let well_maintenance := well_depth * 25000 * multiplier * (5 / 100)
  let name_pit : String := "recharge_pit"
  let name_trench : String := "recharge_trench"
  let name_tank : String := "percolation_tank"
  let name_well : String := "injection_well"
  let reason_small : String := "Small volume, cost-effective solution"
  let reason_clay : String := "Clay soil requires deep injection for effective recharge"
  let reason_large : String := "Large volume best handled by percolation tank"
  let reason_infiltration : String := "Good infiltration rate suitable for trench system"
  let reason_standard : String := "Standard solution for moderate volumes"
  let soil_clay : String := "Clay"
  let soil_clay_loam : String := "Clay Loam"
  let recommended_pair : String × String :=
    if effective_volume < 8 then (name_pit, reason_small)
    else if (soil_type = soil_clay ∨ soil_type = soil_clay_loam) ∧ effective_volume > 20 then
      (name_well, reason_clay)
    else if effective_volume > 40 then (name_tank, reason_large)
    else if infiltration_rate > 15 then (name_trench, reason_infiltration)
    else (name_pit, reason_standard)
  let recommended := recommended_pair.1
  let reason := recommended_pair.2
  let tier_high : String := "High"
  let tier_medium : String := "Medium"
  let tier_low : String := "Low"
  let suitability :=
    if infiltration_rate > 15 then tier_high
    else if infiltration_rate > 5 then tier_medium
    else tier_low
  let total_estimated_cost :=
    if recommended = name_pit then pit_cost
    else if recommended = name_trench then trench_cost
    else if recommended = name_tank then tank_cost
    else well_cost
  let annual_maintenance_cost :=
    if recommended = name_pit then pit_maintenance
    else if recommended = name_trench then trench_maintenance
    else if recommended = name_tank then tank_maintenance
    else well_maintenance
  let groundwater_recharge_benefit := effective_volume * (8 / 10)
  ⟨pit_volume, pit_diameter_sq, pit_depth, pit_cost, pit_maintenance,
   trench_volume, trench_length, trench_width, trench_depth, trench_cost,
   trench_maintenance, tank_volume, tank_diameter_sq, tank_depth, tank_area,
   tank_cost, tank_maintenance, well_volume, well_diameter, well_depth,
   well_cost, well_maintenance, recommended, reason, effective_volume,
   infiltration_rate, suitability, total_estimated_cost,
   annual_maintenance_cost, groundwater_recharge_benefit⟩

/-- The opening of the report string built by `generate_comprehensive_report`
(lines 885-897): a fixed template with substitution slots.  The numeric
f-string slots are taken as already-formatted strings (Python float formatting
is out of the rational embedding), and the remainder of the template is the
`rest` slot; the current date (`datetime.now().strftime('%B %d, %Y')`, line
888) enters the text only at the `analysis_date` slot. -/
def generate_comprehensive_report_model (analysis_date location_address
    coordinates feasibility_score system_tier investment savings
    payback_years rest : String) : String :=
  "\n# COMPREHENSIVE RAINWATER HARVESTING FEASIBILITY REPORT\n**Location:** " ++
  location_address ++
  "\n**Analysis Date:** " ++
  analysis_date ++
  "\n**Coordinates:** " ++
  coordinates ++
  "\n\n## EXECUTIVE SUMMARY\n**Feasibility Score:** " ++
  feasibility_score ++
  "/100\n**System Type Recommended:** " ++
  system_tier ++
  "\n**Investment Required:** ₹" ++
  investment ++
  "\n**Annual Savings Potential:** ₹" ++
  savings ++
  "\n**Payback Period:** " ++
  payback_years ++
  " years\n" ++
  rest

/-- The `CalculationResult` record of `rainwater__pipeline.py` (lines 28-31). -/
structure CalculationResult where
  tank_volume : ℚ
  cost_estimate : ℚ
  overflow : ℚ
deriving DecidableEq

/-- The runoff coefficient of `run_rainwater_pipeline`
(rainwater__pipeline.py line 139): `0.8 if soil_type != 'rocky' else 0.5`. -/
def pipeline_runoff_coeff (soil_type : String) : ℚ :=
  if soil_type ≠ "rocky" then 8 / 10 else 5 / 10

/-- The local calculation block of `run_rainwater_pipeline`
(rainwater__pipeline.py lines 139-149): runoff volume, tank volume capped by
`budget * 0.3`, a dummy cost estimate, and the overflow.  The surrounding
LLM/crew orchestration is out of scope. -/
def run_rainwater_pipeline_calc (roof_area rainfall_mm : ℚ)
    (soil_type : String) (budget : ℚ) : CalculationResult :=
  let runoff_coeff := pipeline_runoff_coeff soil_type
  let runoff_volume := roof_area * rainfall_mm * runoff_coeff
  let tank_volume := min runoff_volume (budget * (3 / 10))
  let cost_estimate := tank_volume * 3
  let overflow := max (runoff_volume - tank_volume) 0
  ⟨tank_volume, cost_estimate, overflow⟩

/-- The string `"rocky"`, the pipeline's special-cased soil type. -/
def soil_rocky : String := "rocky"

/-- The string `"Loam"`, a key of the soil tables. -/
def soil_loam : String := "Loam"

/-- The string `"Sandy Loam"`, a key of the soil tables. -/
def soil_sandy_loam : String := "Sandy Loam"

/-- The string `"Clay"`, a key of the soil tables. -/
def soil_clay : String := "Clay"

/-- A sample analysis date string, as `datetime.now().strftime('%B %d, %Y')`
would render it. -/
def sample_date_a : String := "October 11, 2025"

/-- A second, different analysis date string. -/
def sample_date_b : String := "October 12, 2025"

/-- A placeholder value for the remaining report slots. -/
def sample_slot : String := "x"

/-! Characterization of the payback-search loop. -/

lemma payback_loop_fst (total_initial : ℚ) (f : ℕ → ℚ) :
    ∀ n, (payback_loop total_initial f n).1 = cumulative_net f n := by
  intro n
  induction n with
  | zero => simp [payback_loop, cumulative_net]
  | succ n ih =>
      simp only [payback_loop]
      rw [ih, cumulative_net, cumulative_net,
        Finset.sum_Icc_succ_top (by omega : 1 ≤ n + 1)]

lemma payback_loop_none_iff (total_initial : ℚ) (f : ℕ → ℚ) :
    ∀ n, ((payback_loop total_initial f n).2 = none ↔
      ∀ y, 1 ≤ y → y ≤ n → cumulative_net f y < total_initial) := by
  intro n
  induction n with
  | zero =>
      simp only [payback_loop]
      constructor
      · intro _ y h1 h2
        omega
      · intro _
        trivial
  | succ n ih =>
      simp only [payback_loop]
      cases h : (payback_loop total_initial f n).2 with
      | some y' =>
          simp only [h]
          constructor
          · intro hcontra
            exact absurd hcontra (by simp)
          · intro hall
            have : (payback_loop total_initial f n).2 = none :=
              ih.mpr (fun y h1 h2 => hall y h1 (by omega))
            rw [h] at this
            exact absurd this (by simp)
      | none =>
          have hfst : (payback_loop total_initial f n).1 + f (n + 1) =
              cumulative_net f (n + 1) := by
            rw [payback_loop_fst, cumulative_net, cumulative_net,
              Finset.sum_Icc_succ_top (by omega : 1 ≤ n + 1)]
          simp only [h]
          split_ifs with hc
          · constructor
            · intro hcontra
              exact absurd hcontra (by simp)
            · intro hall
              have := hall (n + 1) (by omega) (by omega)
              rw [← hfst] at this
              exact absurd hc (by linarith)
          · constructor
            · intro _ y h1 h2
              rcases Nat.lt_or_ge y (n + 1) with hy | hy
              · exact (ih.mp h) y h1 (by omega)
              · have hy' : y = n + 1 := by omega
                subst hy'
                rw [← hfst]
                linarith [not_le.mp hc]
            · intro _
              rfl

lemma payback_loop_some_iff (total_initial : ℚ) (f : ℕ → ℚ) :
    ∀ n y, ((payback_loop total_initial f n).2 = some y ↔
      (1 ≤ y ∧ y ≤ n ∧ total_initial ≤ cumulative_net f y ∧
        ∀ z, 1 ≤ z → z < y → cumulative_net f z < total_initial)) := by
  intro n
  induction n with
  | zero =>
      intro y
      simp only [payback_loop]
      constructor
      · intro hcontra
        exact absurd hcontra (by simp)
      · intro ⟨h1, h2, _, _⟩
        omega
  | succ n ih =>
      intro y
      have hfst : (payback_loop total_initial f n).1 + f (n + 1) =
          cumulative_net f (n + 1) := by
        rw [payback_loop_fst, cumulative_net, cumulative_net,
          Finset.sum_Icc_succ_top (by omega : 1 ≤ n + 1)]
      simp only [payback_loop]
      cases h : (payback_loop total_initial f n).2 with
      | some y' =>
          have hy' := (ih y').mp h
          simp only [h, Option.some.injEq]
          constructor
          · intro hEq
            subst hEq
            exact ⟨hy'.1, by omega, hy'.2.2.1, hy'.2.2.2⟩
          · intro ⟨h1, h2, h3, h4⟩
            rcases lt_trichotomy y' y with hlt | hEq | hgt
            · exact absurd hy'.2.2.1 (not_le.mpr (h4 y' hy'.1 hlt))
            · exact hEq
            · exact absurd h3 (not_le.mpr (hy'.2.2.2 y h1 hgt))
      | none =>
          have hnone := (payback_loop_none_iff total_initial f n).mp h
          simp only [h]
          split_ifs with hc
          · simp only [Option.some.injEq]
            constructor
            · intro hEq
              subst hEq
              refine ⟨by omega, by omega, by rw [← hfst]; exact hc, ?_⟩
              intro z h1 h2
              exact hnone z h1 (by omega)
            · intro ⟨h1, h2, h3, _⟩
              rcases Nat.lt_or_ge y (n + 1) with hy | hy
              · exact absurd h3 (not_le.mpr (hnone y h1 (by omega)))
              · omega
          · constructor
            · intro hcontra
              exact absurd hcontra (by simp)
            · intro ⟨h1, h2, h3, _⟩
              rcases Nat.lt_or_ge y (n + 1) with hy | hy
              · exact absurd h3 (not_le.mpr (hnone y h1 (by omega)))
              · have hy' : y = n + 1 := by omega
                subst hy'
                rw [← hfst] at h3
                exact absurd h3 hc

/-- Claim C4: for every cost record (its `total_initial` and `total_annual`)
and every annual savings value — including zero harvest/savings and zero or
negative costs — the embedded `calculate_financial_metrics` (run at its
default rates, 20-year horizon) is a total function returning a complete
record in which: the simple and discounted payback fields are `none` exactly
when the cumulative (respectively discounted cumulative) net benefit never
reaches the initial cost within the 20-year horizon, and the benefit/cost
ratio is the PV quotient when the total PV cost is positive and 0 otherwise.
(The source's `except: return 0.0` IRR fallback guards only pure arithmetic
and is unreachable; the bisection itself is total.) -/
theorem financial_metrics_degenerate_safe (total_initial total_annual annual_savings : ℚ) :
    ((calculate_financial_metrics total_initial total_annual annual_savings
        (8 / 100) (7 / 100) 20).payback_period = none ↔
      ∀ y, 1 ≤ y → y ≤ 20 →
        cumulative_net
          (fun k => annual_savings * (1 + 8 / 100) ^ k - total_annual) y <
          total_initial) ∧
    ((calculate_financial_metrics total_initial total_annual annual_savings
        (8 / 100) (7 / 100) 20).discounted_payback = none ↔
      ∀ y, 1 ≤ y → y ≤ 20 →
        cumulative_net
          (fun k => (annual_savings * (1 + 8 / 100) ^ k - total_annual) /
            (1 + 7 / 100) ^ k) y < total_initial) ∧
    ((calculate_financial_metrics total_initial total_annual annual_savings
        (8 / 100) (7 / 100) 20).total_costs_pv ≤ 0 →
      FinancialMetrics.benefit_cost_ratio
        (calculate_financial_metrics total_initial total_annual annual_savings
          (8 / 100) (7 / 100) 20) = 0) ∧
    (0 < (calculate_financial_metrics total_initial total_annual annual_savings
        (8 / 100) (7 / 100) 20).total_costs_pv →
      FinancialMetrics.benefit_cost_ratio
        (calculate_financial_metrics total_initial total_annual annual_savings
          (8 / 100) (7 / 100) 20) =
        (calculate_financial_metrics total_initial total_annual annual_savings
          (8 / 100) (7 / 100) 20).total_benefits_pv /
        (calculate_financial_metrics total_initial total_annual annual_savings
          (8 / 100) (7 / 100) 20).total_costs_pv) := by
  refine ⟨?_, ?_, ?_, ?_⟩
  · simpa only [calculate_financial_metrics] using
      payback_loop_none_iff total_initial
        (fun k => annual_savings * (1 + 8 / 100) ^ k - total_annual) 20
  · simpa only [calculate_financial_metrics] using
      payback_loop_none_iff total_initial
        (fun k => (annual_savings * (1 + 8 / 100) ^ k - total_annual) /
          (1 + 7 / 100) ^ k) 20
  · intro hle
    simp only [calculate_financial_metrics] at hle ⊢
    rw [if_neg (not_lt.mpr hle)]
  · intro hpos
    simp only [calculate_financial_metrics] at hpos ⊢
    rw [if_pos hpos]

/-- Claim C4 witness: at `total_initial = -1`, zero operating cost and zero
savings the total PV cost is negative, and the theorem yields the 0 sentinel
benefit/cost ratio. -/
theorem financial_metrics_degenerate_safe_witness :
    (calculate_financial_metrics (-1) 0 0 (8 / 100) (7 / 100) 20).total_costs_pv ≤ 0 ∧
    FinancialMetrics.benefit_cost_ratio
      (calculate_financial_metrics (-1) 0 0 (8 / 100) (7 / 100) 20) = 0 :=
  ⟨by norm_num [calculate_financial_metrics],
   (financial_metrics_degenerate_safe (-1) 0 0).2.2.1
     (by norm_num [calculate_financial_metrics])⟩

/-- Claim C7: for every cost record and annual savings base (and any
escalation rate), the simple payback year is the least year `y` in `[1..20]`
whose cumulative undiscounted net benefit reaches `total_initial`, and with
zero escalation, zero annual operating cost, positive initial cost and
positive savings it equals `ceil(total_initial / annual_savings)` whenever
that is at most 20.  (The positivity hypotheses are needed: see the
counterexample at `total_initial = 0`.) -/
theorem simple_payback_least_year (total_initial total_annual annual_savings
    water_cost_increase : ℚ) :
    (∀ y, ((calculate_financial_metrics total_initial total_annual annual_savings
        water_cost_increase (7 / 100) 20).payback_period = some y ↔
      (1 ≤ y ∧ y ≤ 20 ∧
        total_initial ≤ cumulative_net
          (fun k => annual_savings * (1 + water_cost_increase) ^ k - total_annual) y ∧
        ∀ z, 1 ≤ z → z < y →
          cumulative_net
            (fun k => annual_savings * (1 + water_cost_increase) ^ k - total_annual) z <
            total_initial))) ∧
    (water_cost_increase = 0 → total_annual = 0 → 0 < total_initial →
      0 < annual_savings →
      (Int.ceil (total_initial / annual_savings)).toNat ≤ 20 →
      (calculate_financial_metrics total_initial total_annual annual_savings
        water_cost_increase (7 / 100) 20).payback_period =
        some ((Int.ceil (total_initial / annual_savings)).toNat)) := by
  constructor
  · intro y
    simpa only [calculate_financial_metrics] using
      payback_loop_some_iff total_initial
        (fun k => annual_savings * (1 + water_cost_increase) ^ k - total_annual) 20 y
  · intro hwci hta hI hs hle
    subst hwci
    subst hta
    have hsum : ∀ y : ℕ,
        cumulative_net (fun k => annual_savings * (1 + 0) ^ k - 0) y =
          (y : ℚ) * annual_savings := by
      intro y
      simp [cumulative_net, Finset.sum_const, Nat.card_Icc, mul_comm]
    have hceil : (0 : ℤ) < Int.ceil (total_initial / annual_savings) :=
      Int.ceil_pos.mpr (div_pos hI hs)
    have hcast : ((Int.ceil (total_initial / annual_savings)).toNat : ℚ) =
        ((Int.ceil (total_initial / annual_savings) : ℤ) : ℚ) := by
      have h0 : (((Int.ceil (total_initial / annual_savings)).toNat : ℕ) : ℤ) =
          Int.ceil (total_initial / annual_savings) :=
        Int.toNat_of_nonneg hceil.le
      exact_mod_cast congrArg (fun z : ℤ => (z : ℚ)) h0
    have hchar := payback_loop_some_iff total_initial
      (fun k => annual_savings * (1 + 0) ^ k - 0) 20
      ((Int.ceil (total_initial / annual_savings)).toNat)
    simp only [calculate_financial_metrics]
    refine hchar.mpr ⟨by omega, hle, ?_, ?_⟩
    · rw [hsum, hcast]
      have h1 : total_initial / annual_savings ≤
          ((Int.ceil (total_initial / annual_savings) : ℤ) : ℚ) := Int.le_ceil _
      calc total_initial = total_initial / annual_savings * annual_savings := by
            field_simp
        _ ≤ ((Int.ceil (total_initial / annual_savings) : ℤ) : ℚ) * annual_savings := by
            exact mul_le_mul_of_nonneg_right h1 hs.le
    · intro z h1 h2
      rw [hsum]
      have hz : ((z : ℤ) : ℚ) < total_initial / annual_savings := by
        apply Int.lt_ceil.mp
        omega
      have := (lt_div_iff₀ hs).mp (by exact_mod_cast hz)
      exact this

/-- Claim C7 counterexample: at `total_initial = 0` (zero escalation, zero
operating cost, savings 1) the code returns payback year 1, while
`ceil(total_initial / annual_savings) = 0 ≤ 20`; the claimed equality fails
without positivity assumptions. -/
theorem simple_payback_least_year_counterexample :
    (calculate_financial_metrics 0 0 1 0 (7 / 100) 20).payback_period = some 1 ∧
    (Int.ceil ((0 : ℚ) / 1)).toNat = 0 ∧ (1 : ℕ) ≠ 0 := by
  refine ⟨?_, by norm_num, by decide⟩
  norm_num [calculate_financial_metrics, payback_loop]

/-- Claim C7 witness: initial cost 100, savings 30 per year, zero escalation:
payback in year `ceil(100/30) = 4`. -/
theorem simple_payback_least_year_witness :
    (calculate_financial_metrics 100 0 30 0 (7 / 100) 20).payback_period =
      some ((Int.ceil ((100 : ℚ) / 30)).toNat) :=
  (simple_payback_least_year 100 0 30 0).2 rfl rfl (by norm_num) (by norm_num)
    (by
      have h4 : Int.ceil ((100 : ℚ) / 30) = 4 := by
        rw [Int.ceil_eq_iff]
        norm_num
      rw [h4]
      decide)

/-- Claim C1 counterexample: at catchment area 100 m² and uniform monthly
rainfall of 100 mm the code's annual harvest is 96 m³
(`100 × 1200 × 0.80 / 1000`), not the claimed
`100 × 1200 × 0.85 × 0.80 / 1000 = 81.6` m³: `calculate_water_metrics`
multiplies by `EFFICIENCY` only and applies no runoff coefficient. -/
theorem harvest_formula_counterexample :
    (calculate_water_metrics (List.replicate 12 100) none 100 0 0
      WaterSource.municipal).annual_harvest_historical = 96 ∧
    (100 * 1200 * (85 / 100) * (80 / 100) / 1000 : ℚ) = 408 / 5 ∧
    (96 : ℚ) ≠ 408 / 5 := by
  refine ⟨?_, by norm_num, by norm_num⟩
  norm_num [calculate_water_metrics, EFFICIENCY, List.replicate]

/-- Claim C1 (amended): for every monthly rainfall series and catchment area,
the monthly harvested volume computed by `calculate_water_metrics` is
`rainfall_mm[month] × catchment_area_m2 × EFFICIENCY / 1000` m³ with the
fixed constant `EFFICIENCY = 0.80` and no separate runoff coefficient, the
annual harvest is the sum of the monthly volumes, and the concrete scenario
(100 m², uniform 100 mm/month) yields 96 m³. -/
theorem harvest_formula (historical : List ℚ) (forecast : Option (List ℚ))
    (roof_area household_size garden_area : ℚ) (ws : WaterSource) :
    (calculate_water_metrics historical forecast roof_area household_size
        garden_area ws).monthly_harvest_m3 =
      historical.map (fun r => r * roof_area * EFFICIENCY / 1000) ∧
    (calculate_water_metrics historical forecast roof_area household_size
        garden_area ws).annual_harvest_historical =
      (historical.map (fun r => r * roof_area * EFFICIENCY / 1000)).sum ∧
    EFFICIENCY = 80 / 100 ∧
    (calculate_water_metrics (List.replicate 12 100) none 100 0 0
      WaterSource.municipal).annual_harvest_historical = 96 := by
  refine ⟨?_, ?_, rfl, ?_⟩
  · simp [calculate_water_metrics, List.map_map, Function.comp_def]
  · simp [calculate_water_metrics, List.map_map, Function.comp_def]
  · norm_num [calculate_water_metrics, EFFICIENCY, List.replicate]

/-- Claim C9: for non-negative rainfall, area, household and garden inputs,
the historical and future coverage values of `calculate_water_metrics` lie in
`[0, 100]`, and when the total demand is 0 both are 0 (the guarded branches of
lines 482-483) rather than a division-by-zero failure. -/
theorem coverage_bounds (historical : List ℚ) (forecast : Option (List ℚ))
    (roof_area household_size garden_area : ℚ) (ws : WaterSource)
    (hrain : ∀ r ∈ historical, 0 ≤ r) (ha : 0 ≤ roof_area) :
    (0 ≤ (calculate_water_metrics historical forecast roof_area household_size
        garden_area ws).historical_coverage ∧
      (calculate_water_metrics historical forecast roof_area household_size
        garden_area ws).historical_coverage ≤ 100) ∧
    (0 ≤ (calculate_water_metrics historical forecast roof_area household_size
        garden_area ws).future_coverage ∧
      (calculate_water_metrics historical forecast roof_area household_size
        garden_area ws).future_coverage ≤ 100) ∧
    ((calculate_water_metrics historical forecast roof_area household_size
        garden_area ws).total_demand = 0 →
      (calculate_water_metrics historical forecast roof_area household_size
        garden_area ws).historical_coverage = 0 ∧
      (calculate_water_metrics historical forecast roof_area household_size
        garden_area ws).future_coverage = 0) := by
  have hharv : 0 ≤ ((historical.map (fun r => r * roof_area * EFFICIENCY)).map
      (fun x => x / 1000)).sum := by
    apply List.sum_nonneg
    intro x hx
    simp only [List.mem_map] at hx
    obtain ⟨_, ⟨r, hr, rfl⟩, rfl⟩ := hx
    have h1 : (0 : ℚ) ≤ EFFICIENCY := by norm_num [EFFICIENCY]
    exact div_nonneg (mul_nonneg (mul_nonneg (hrain r hr) ha) h1) (by norm_num)
  simp only [calculate_water_metrics]
  refine ⟨⟨?_, ?_⟩, ⟨?_, ?_⟩, ?_⟩
  · split_ifs with h
    · exact le_min (by norm_num)
        (mul_nonneg (div_nonneg hharv h.le) (by norm_num))
    · exact le_refl 0
  · split_ifs with h
    · exact min_le_left _ _
    · norm_num
  · split_ifs with h
    · refine le_min (by norm_num) (mul_nonneg (div_nonneg ?_ h.1.le) (by norm_num))
      exact h.2.le
    · exact le_refl 0
  · split_ifs with h
    · exact min_le_left _ _
    · norm_num
  · intro hd
    rw [hd]
    norm_num

/-- Claim C9 witness: a concrete non-negative instance. -/
theorem coverage_bounds_witness :
    (0 ≤ (calculate_water_metrics (List.replicate 12 100) none 100 4 0
        WaterSource.municipal).historical_coverage ∧
      (calculate_water_metrics (List.replicate 12 100) none 100 4 0
        WaterSource.municipal).historical_coverage ≤ 100) ∧
    (0 ≤ (calculate_water_metrics (List.replicate 12 100) none 100 4 0
        WaterSource.municipal).future_coverage ∧
      (calculate_water_metrics (List.replicate 12 100) none 100 4 0
        WaterSource.municipal).future_coverage ≤ 100) ∧
    ((calculate_water_metrics (List.replicate 12 100) none 100 4 0
        WaterSource.municipal).total_demand = 0 →
      (calculate_water_metrics (List.replicate 12 100) none 100 4 0
        WaterSource.municipal).historical_coverage = 0 ∧
      (calculate_water_metrics (List.replicate 12 100) none 100 4 0
        WaterSource.municipal).future_coverage = 0) :=
  coverage_bounds (List.replicate 12 100) none 100 4 0 WaterSource.municipal
    (by intro r hr; simp only [List.mem_replicate] at hr; rw [hr.2]; norm_num)
    (by norm_num)

/-- Claim C10: the local calculation of `run_rainwater_pipeline` exactly
partitions the harvested runoff: `tank_volume = min(runoff_volume,
0.3 × budget)`, the overflow is non-negative, `tank_volume + overflow =
runoff_volume`, and the runoff coefficient is 0.5 for rocky soil and 0.8
otherwise. -/
theorem pipeline_partition (roof_area rainfall_mm : ℚ) (soil_type : String)
    (budget : ℚ) (_hb : 0 ≤ budget) :
    (run_rainwater_pipeline_calc roof_area rainfall_mm soil_type budget).tank_volume =
      min (roof_area * rainfall_mm * pipeline_runoff_coeff soil_type)
        ((3 / 10) * budget) ∧
    0 ≤ (run_rainwater_pipeline_calc roof_area rainfall_mm soil_type budget).overflow ∧
    (run_rainwater_pipeline_calc roof_area rainfall_mm soil_type budget).tank_volume +
      (run_rainwater_pipeline_calc roof_area rainfall_mm soil_type budget).overflow =
      roof_area * rainfall_mm * pipeline_runoff_coeff soil_type ∧
    (soil_type = "rocky" → pipeline_runoff_coeff soil_type = 5 / 10) ∧
    (soil_type ≠ "rocky" → pipeline_runoff_coeff soil_type = 8 / 10) := by
  have htank : (run_rainwater_pipeline_calc roof_area rainfall_mm soil_type
      budget).tank_volume ≤ roof_area * rainfall_mm * pipeline_runoff_coeff soil_type := by
    simp only [run_rainwater_pipeline_calc]
    exact min_le_left _ _
  refine ⟨?_, ?_, ?_, ?_, ?_⟩
  · simp only [run_rainwater_pipeline_calc]
    rw [mul_comm budget (3 / 10)]
  · simp only [run_rainwater_pipeline_calc]
    exact le_max_right _ _
  · simp only [run_rainwater_pipeline_calc] at htank ⊢
    rw [max_eq_left (by linarith)]
    ring
  · intro h
    simp [pipeline_runoff_coeff, h]
  · intro h
    simp [pipeline_runoff_coeff, h]

/-- Claim C10 witness: rocky soil, area 10 m², 100 mm, budget 100. -/
theorem pipeline_partition_witness :
    (run_rainwater_pipeline_calc 10 100 soil_rocky 100).tank_volume =
      min (10 * 100 * pipeline_runoff_coeff soil_rocky) ((3 / 10) * 100) ∧
    0 ≤ (run_rainwater_pipeline_calc 10 100 soil_rocky 100).overflow ∧
    (run_rainwater_pipeline_calc 10 100 soil_rocky 100).tank_volume +
      (run_rainwater_pipeline_calc 10 100 soil_rocky 100).overflow =
      10 * 100 * pipeline_runoff_coeff soil_rocky ∧
    (soil_rocky = "rocky" → pipeline_runoff_coeff soil_rocky = 5 / 10) ∧
    (soil_rocky ≠ "rocky" → pipeline_runoff_coeff soil_rocky = 8 / 10) :=
  pipeline_partition 10 100 soil_rocky 100 (by norm_num)

/-! Monotonicity of the feasibility sub-scores. -/

lemma rainfall_subscore_mono {x y : ℚ} (h : x ≤ y) :
    rainfall_subscore x ≤ rainfall_subscore y := by
  unfold rainfall_subscore
  split_ifs <;> linarith

lemma harvest_subscore_mono {x y : ℚ} (h : x ≤ y) :
    harvest_subscore x ≤ harvest_subscore y := by
  unfold harvest_subscore
  split_ifs <;> linarith

lemma coverage_subscore_mono {x y : ℚ} (h : x ≤ y) :
    coverage_subscore x ≤ coverage_subscore y := by
  unfold coverage_subscore
  split_ifs <;> linarith

lemma economic_subscore_mono {x y : ℚ} (h : x ≤ y) :
    economic_subscore x ≤ economic_subscore y := by
  unfold economic_subscore
  split_ifs <;> linarith

lemma payback_subscore_anti {p q : ℕ} (h1 : 1 ≤ p) (h2 : p ≤ q) :
    payback_subscore (some q) ≤ payback_subscore (some p) := by
  unfold payback_subscore
  dsimp only
  split_ifs <;> first | omega | norm_num

lemma future_trend_subscore_mono {h x y : ℚ} (hxy : x ≤ y) :
    future_trend_subscore x h ≤ future_trend_subscore y h := by
  unfold future_trend_subscore
  split_ifs <;> linarith

/-- Claim C2 counterexample: two result records identical except that the
improved one has the larger historical harvest (10 instead of 9, with future
harvest 10 in both) score 16.5 and 21 respectively: increasing the
harvest category strictly lowers the feasibility score, because the
future-trend band compares the future harvest against multiples of the
historical harvest. -/
theorem assess_feasibility_mono_counterexample :
    assess_feasibility
        { (⟨0, 9, 0, 0, 0, none, 10⟩ : FeasibilityInputs) with
          annual_harvest_historical := 10 } <
      assess_feasibility (⟨0, 9, 0, 0, 0, none, 10⟩ : FeasibilityInputs) ∧
    (9 : ℚ) < 10 := by
  constructor
  · norm_num [assess_feasibility, rainfall_subscore, harvest_subscore,
      coverage_subscore, economic_subscore, payback_subscore,
      future_trend_subscore]
  · norm_num

/-- Claim C2 (amended): the feasibility score of `assess_feasibility` is
monotonically non-decreasing when any one of annual rainfall, historical
coverage, future coverage, benefit/cost ratio or future harvest is increased
with all other fields fixed, and non-increasing in the (positive) payback
year; it is NOT monotone in the annual harvest, which also feeds the
future-trend comparison (see the counterexample). -/
theorem assess_feasibility_mono :
    (∀ (r : FeasibilityInputs) (x y : ℚ), x ≤ y →
      assess_feasibility { r with annual_rainfall_historical := x } ≤
        assess_feasibility { r with annual_rainfall_historical := y }) ∧
    (∀ (r : FeasibilityInputs) (x y : ℚ), x ≤ y →
      assess_feasibility { r with historical_coverage := x } ≤
        assess_feasibility { r with historical_coverage := y }) ∧
    (∀ (r : FeasibilityInputs) (x y : ℚ), x ≤ y →
      assess_feasibility { r with future_coverage := x } ≤
        assess_feasibility { r with future_coverage := y }) ∧
    (∀ (r : FeasibilityInputs) (x y : ℚ), x ≤ y →
      assess_feasibility { r with benefit_cost_ratio := x } ≤
        assess_feasibility { r with benefit_cost_ratio := y }) ∧
    (∀ (r : FeasibilityInputs) (p q : ℕ), 1 ≤ p → p ≤ q →
      assess_feasibility { r with payback_period := some q } ≤
        assess_feasibility { r with payback_period := some p }) ∧
    (∀ (r : FeasibilityInputs) (x y : ℚ), x ≤ y →
      assess_feasibility { r with annual_harvest_future := x } ≤
        assess_feasibility { r with annual_harvest_future := y }) := by
  refine ⟨?_, ?_, ?_, ?_, ?_, ?_⟩
  · intro r x y h
    simp only [assess_feasibility]
    refine min_le_min le_rfl ?_
    have := rainfall_subscore_mono h
    gcongr
  · intro r x y h
    simp only [assess_feasibility]
    refine min_le_min le_rfl ?_
    have := coverage_subscore_mono (max_le_max h (le_refl r.future_coverage))
    gcongr
  · intro r x y h
    simp only [assess_feasibility]
    refine min_le_min le_rfl ?_
    have := coverage_subscore_mono (max_le_max (le_refl r.historical_coverage) h)
    gcongr
  · intro r x y h
    simp only [assess_feasibility]
    refine min_le_min le_rfl ?_
    have := economic_subscore_mono h
    gcongr
  · intro r p q h1 h2
    simp only [assess_feasibility]
    refine min_le_min le_rfl ?_
    have := payback_subscore_anti h1 h2
    gcongr
  · intro r x y h
    simp only [assess_feasibility]
    refine min_le_min le_rfl ?_
    have := future_trend_subscore_mono (h := r.annual_harvest_historical) h
    gcongr

/-- Claim C2 witness: each monotonicity conjunct applied at a concrete record
and concrete bounds. -/
theorem assess_feasibility_mono_witness :
    (assess_feasibility
        { (⟨0, 0, 0, 0, 0, none, 0⟩ : FeasibilityInputs) with
          annual_rainfall_historical := (400 : ℚ) } ≤
      assess_feasibility
        { (⟨0, 0, 0, 0, 0, none, 0⟩ : FeasibilityInputs) with
          annual_rainfall_historical := (900 : ℚ) }) ∧
    (assess_feasibility
        { (⟨0, 0, 0, 0, 0, none, 0⟩ : FeasibilityInputs) with
          historical_coverage := (10 : ℚ) } ≤
      assess_feasibility
        { (⟨0, 0, 0, 0, 0, none, 0⟩ : FeasibilityInputs) with
          historical_coverage := (50 : ℚ) }) ∧
    (assess_feasibility
        { (⟨0, 0, 0, 0, 0, none, 0⟩ : FeasibilityInputs) with
          future_coverage := (10 : ℚ) } ≤
      assess_feasibility
        { (⟨0, 0, 0, 0, 0, none, 0⟩ : FeasibilityInputs) with
          future_coverage := (50 : ℚ) }) ∧
    (assess_feasibility
        { (⟨0, 0, 0, 0, 0, none, 0⟩ : FeasibilityInputs) with
          benefit_cost_ratio := (1 : ℚ) } ≤
      assess_feasibility
        { (⟨0, 0, 0, 0, 0, none, 0⟩ : FeasibilityInputs) with
          benefit_cost_ratio := (2 : ℚ) }) ∧
    (assess_feasibility
        { (⟨0, 0, 0, 0, 0, none, 0⟩ : FeasibilityInputs) with
          payback_period := some 10 } ≤
      assess_feasibility
        { (⟨0, 0, 0, 0, 0, none, 0⟩ : FeasibilityInputs) with
          payback_period := some 5 }) ∧
    (assess_feasibility
        { (⟨0, 0, 0, 0, 0, none, 0⟩ : FeasibilityInputs) with
          annual_harvest_future := (1 : ℚ) } ≤
      assess_feasibility
        { (⟨0, 0, 0, 0, 0, none, 0⟩ : FeasibilityInputs) with
          annual_harvest_future := (2 : ℚ) }) :=
  ⟨assess_feasibility_mono.1 _ 400 900 (by norm_num),
   assess_feasibility_mono.2.1 _ 10 50 (by norm_num),
   assess_feasibility_mono.2.2.1 _ 10 50 (by norm_num),
   assess_feasibility_mono.2.2.2.1 _ 1 2 (by norm_num),
   assess_feasibility_mono.2.2.2.2.1 _ 5 10 (by norm_num) (by norm_num),
   assess_feasibility_mono.2.2.2.2.2 _ 1 2 (by norm_num)⟩

/-- Claim C5 counterexample: at `annual_harvest = 0` (soil `"Loam"`) the
injection-well volume is the fixed positive `3.14 × 0.15² × 10 = 0.7065` m³ —
not zero — and the returned rationale is the pit recommendation
`"Small volume, cost-effective solution"`, not a "not recommended" rationale. -/
theorem recharge_zero_harvest_counterexample :
    (calculate_recharge_structures_enhanced 0 soil_loam none).injection_well_volume =
      1413 / 2000 ∧
    ((1413 : ℚ) / 2000) ≠ 0 ∧
    (calculate_recharge_structures_enhanced 0 soil_loam none).recommendation_reason =
      "Small volume, cost-effective solution" := by
  refine ⟨?_, by norm_num, ?_⟩
  · simp [calculate_recharge_structures_enhanced, SOIL_PERMEABILITY, soil_loam]
    norm_num
  · simp [calculate_recharge_structures_enhanced, SOIL_PERMEABILITY, soil_loam]

/-- Claim C5 (amended): at `annual_harvest = 0`, for every soil type, the
sizer divides only by fixed nonzero structure dimensions (it cannot divide by
zero and does not fail), the pit, trench and percolation-tank volumes are all
zero and the recharge potential is zero, but the injection-well volume is a
fixed positive constant and the recommendation is the pit with the
`"Small volume, cost-effective solution"` rationale. -/
theorem recharge_zero_harvest (soil_type : String) :
    (calculate_recharge_structures_enhanced 0 soil_type none).recharge_pit_volume = 0 ∧
    (calculate_recharge_structures_enhanced 0 soil_type none).recharge_trench_volume = 0 ∧
    (calculate_recharge_structures_enhanced 0 soil_type none).percolation_tank_volume = 0 ∧
    0 < (calculate_recharge_structures_enhanced 0 soil_type none).injection_well_volume ∧
    (calculate_recharge_structures_enhanced 0 soil_type none).recommended_structure =
      "recharge_pit" ∧
    (calculate_recharge_structures_enhanced 0 soil_type none).recommendation_reason =
      "Small volume, cost-effective solution" ∧
    (calculate_recharge_structures_enhanced 0 soil_type none).annual_recharge_potential = 0 := by
  norm_num [calculate_recharge_structures_enhanced, RECHARGE_FACTOR]
  split_ifs <;> norm_num

/-- Claim C6 counterexample: for soil `"Sandy Loam"` (multiplier 1) the
injection-well cost is `well_depth × 25000 = 250000` INR, while
`well_volume × 25000 × multiplier = 0.7065 × 25000 = 17662.5` INR: the well's
cost is per metre of depth, not per m³ of volume. -/
theorem recharge_costs_counterexample :
    (calculate_recharge_structures_enhanced 0 soil_sandy_loam none).injection_well_cost =
      250000 ∧
    (calculate_recharge_structures_enhanced 0 soil_sandy_loam none).injection_well_volume *
      25000 * soil_cost_multiplier soil_sandy_loam = 35325 / 2 ∧
    (250000 : ℚ) ≠ 35325 / 2 := by
  refine ⟨?_, ?_, by norm_num⟩ <;>
    simp [calculate_recharge_structures_enhanced, SOIL_PERMEABILITY,
      soil_cost_multiplier, soil_sandy_loam, RECHARGE_FACTOR] <;> norm_num

/-- Claim C6 (amended): for every non-negative annual harvest, soil type and
monsoon pattern, the pit, trench and percolation-tank costs equal the
structure's volume times its per-m³ base rate (12000 / 8000 / 15000 INR)
times the soil cost multiplier, and each of those three volumes equals the
effective recharge volume (`annual_recharge_potential`); the injection-well
cost is its DEPTH times 25000 times the multiplier, not its volume (see the
counterexample). -/
theorem recharge_costs (annual_harvest : ℚ) (soil_type : String)
    (rainfall_pattern : Option String) (_h : 0 ≤ annual_harvest) :
    (calculate_recharge_structures_enhanced annual_harvest soil_type rainfall_pattern).recharge_pit_cost =
      (calculate_recharge_structures_enhanced annual_harvest soil_type rainfall_pattern).recharge_pit_volume *
        12000 * soil_cost_multiplier soil_type ∧
    (calculate_recharge_structures_enhanced annual_harvest soil_type rainfall_pattern).recharge_trench_cost =
      (calculate_recharge_structures_enhanced annual_harvest soil_type rainfall_pattern).recharge_trench_volume *
        8000 * soil_cost_multiplier soil_type ∧
    (calculate_recharge_structures_enhanced annual_harvest soil_type rainfall_pattern).percolation_tank_cost =
      (calculate_recharge_structures_enhanced annual_harvest soil_type rainfall_pattern).percolation_tank_volume *
        15000 * soil_cost_multiplier soil_type ∧
    (calculate_recharge_structures_enhanced annual_harvest soil_type rainfall_pattern).injection_well_cost =
      (calculate_recharge_structures_enhanced annual_harvest soil_type rainfall_pattern).injection_well_depth *
        25000 * soil_cost_multiplier soil_type ∧
    (calculate_recharge_structures_enhanced annual_harvest soil_type rainfall_pattern).recharge_pit_volume =
      (calculate_recharge_structures_enhanced annual_harvest soil_type rainfall_pattern).annual_recharge_potential ∧
    (calculate_recharge_structures_enhanced annual_harvest soil_type rainfall_pattern).recharge_trench_volume =
      (calculate_recharge_structures_enhanced annual_harvest soil_type rainfall_pattern).annual_recharge_potential ∧
    (calculate_recharge_structures_enhanced annual_harvest soil_type rainfall_pattern).percolation_tank_volume =
      (calculate_recharge_structures_enhanced annual_harvest soil_type rainfall_pattern).annual_recharge_potential := by
  rcases rainfall_pattern with _ | intensity <;>
    refine ⟨?_, ?_, ?_, ?_, ?_, ?_, ?_⟩ <;>
    simp only [calculate_recharge_structures_enhanced, RECHARGE_FACTOR] <;>
    (try split_ifs) <;> (try ring_nf)

/-- Claim C6 witness: harvest 3 m³ on clay soil. -/
theorem recharge_costs_witness :
    (0 : ℚ) ≤ 3 ∧
    (calculate_recharge_structures_enhanced 3 soil_clay none).recharge_pit_cost =
      (calculate_recharge_structures_enhanced 3 soil_clay none).recharge_pit_volume *
        12000 * soil_cost_multiplier soil_clay :=
  ⟨by norm_num, (recharge_costs 3 soil_clay none (by norm_num)).1⟩

/-- Claim C3 counterexample: with non-positive roof area (0, so
`sqrt(roof_area) = 0`), an 11-entry rainfall series and household size −1,
both the cost estimator and the water-metrics computation return complete
ordinary records (total 389000 / 7700 INR; harvest 88 m³; negative demand
−38.325 m³) — no validation error is raised anywhere, the malformed inputs
flow straight through. -/
theorem no_input_validation_counterexample :
    (calculate_system_costs 10 SystemType.intermediate 0).total_initial = 389000 ∧
    (calculate_system_costs 10 SystemType.intermediate 0).total_annual = 7700 ∧
    (calculate_water_metrics (List.replicate 11 100) none 100 (-1) 0
      WaterSource.municipal).annual_harvest_historical = 88 ∧
    (calculate_water_metrics (List.replicate 11 100) none 100 (-1) 0
      WaterSource.municipal).total_demand = -1533 / 40 := by
  refine ⟨?_, ?_, ?_, ?_⟩
  all_goals norm_num [calculate_system_costs, SYSTEM_COSTS,
    calculate_water_metrics, EFFICIENCY, DRINKING_NEED, DOMESTIC_NEED,
    GARDEN_NEED, List.replicate]
  decide

/-- Claim C3 (amended): the engine performs no input validation.  For
non-positive catchment area, negative household size and a rainfall series
whose length is not 12, no error is surfaced and nothing is corrected: the
cost estimator and the water-metrics computation are total and return
complete, internally consistent records (totals are the sums of their line
items, the monthly harvest series has the same length as whatever series was
supplied). -/
theorem no_input_validation (storage_capacity sqrt_roof_area : ℚ)
    (tier : SystemType) (historical : List ℚ) (forecast : Option (List ℚ))
    (roof_area household_size garden_area : ℚ) (ws : WaterSource)
    (_harea : roof_area ≤ 0) (_hlen : historical.length ≠ 12)
    (_hhs : household_size < 0) :
    (calculate_system_costs storage_capacity tier sqrt_roof_area).total_initial =
      (calculate_system_costs storage_capacity tier sqrt_roof_area).storage_tank +
      (calculate_system_costs storage_capacity tier sqrt_roof_area).gutters_downspouts +
      (calculate_system_costs storage_capacity tier sqrt_roof_area).piping +
      (calculate_system_costs storage_capacity tier sqrt_roof_area).first_flush_diverter +
      (calculate_system_costs storage_capacity tier sqrt_roof_area).filtration +
      (calculate_system_costs storage_capacity tier sqrt_roof_area).uv_sterilizer +
      (calculate_system_costs storage_capacity tier sqrt_roof_area).pump_system +
      (calculate_system_costs storage_capacity tier sqrt_roof_area).installation ∧
    (calculate_system_costs storage_capacity tier sqrt_roof_area).total_annual =
      (calculate_system_costs storage_capacity tier sqrt_roof_area).maintenance +
      (calculate_system_costs storage_capacity tier sqrt_roof_area).filter_replacement +
      (calculate_system_costs storage_capacity tier sqrt_roof_area).electricity +
      (calculate_system_costs storage_capacity tier sqrt_roof_area).water_testing ∧
    (calculate_water_metrics historical forecast roof_area household_size
        garden_area ws).total_demand =
      (calculate_water_metrics historical forecast roof_area household_size
        garden_area ws).drinking_demand +
      (calculate_water_metrics historical forecast roof_area household_size
        garden_area ws).domestic_demand +
      (calculate_water_metrics historical forecast roof_area household_size
        garden_area ws).garden_demand ∧
    (calculate_water_metrics historical forecast roof_area household_size
        garden_area ws).monthly_harvest_m3.length = historical.length := by
  refine ⟨?_, ?_, ?_, ?_⟩ <;>
    simp [calculate_system_costs, calculate_water_metrics]

/-- Claim C3 witness: storage 10 m³, intermediate tier, zero roof area, a
1-entry rainfall series and household size −1. -/
theorem no_input_validation_witness :
    (calculate_system_costs 10 SystemType.intermediate 0).total_initial =
      (calculate_system_costs 10 SystemType.intermediate 0).storage_tank +
      (calculate_system_costs 10 SystemType.intermediate 0).gutters_downspouts +
      (calculate_system_costs 10 SystemType.intermediate 0).piping +
      (calculate_system_costs 10 SystemType.intermediate 0).first_flush_diverter +
      (calculate_system_costs 10 SystemType.intermediate 0).filtration +
      (calculate_system_costs 10 SystemType.intermediate 0).uv_sterilizer +
      (calculate_system_costs 10 SystemType.intermediate 0).pump_system +
      (calculate_system_costs 10 SystemType.intermediate 0).installation ∧
    (calculate_system_costs 10 SystemType.intermediate 0).total_annual =
      (calculate_system_costs 10 SystemType.intermediate 0).maintenance +
      (calculate_system_costs 10 SystemType.intermediate 0).filter_replacement +
      (calculate_system_costs 10 SystemType.intermediate 0).electricity +
      (calculate_system_costs 10 SystemType.intermediate 0).water_testing ∧
    (calculate_water_metrics [100] none 0 (-1) 0 WaterSource.municipal).total_demand =
      (calculate_water_metrics [100] none 0 (-1) 0 WaterSource.municipal).drinking_demand +
      (calculate_water_metrics [100] none 0 (-1) 0 WaterSource.municipal).domestic_demand +
      (calculate_water_metrics [100] none 0 (-1) 0 WaterSource.municipal).garden_demand ∧
    (calculate_water_metrics [100] none 0 (-1) 0
      WaterSource.municipal).monthly_harvest_m3.length = ([100] : List ℚ).length :=
  no_input_validation 10 0 SystemType.intermediate [100] none 0 (-1) 0
    WaterSource.municipal (by norm_num) (by norm_num) (by norm_num)

/-! String-append cancellation, used to show the report text determines the
analysis-date slot. -/

lemma str_cancel_left (a : String) {b c : String} (h : a ++ b = a ++ c) : b = c := by
  have h2 := congrArg String.data h
  simp only [String.data_append] at h2
  exact String.ext (List.append_cancel_left h2)

lemma str_cancel_right {a b : String} (c : String) (h : a ++ c = b ++ c) : a = b := by
  have h2 := congrArg String.data h
  simp only [String.data_append] at h2
  exact String.ext (List.append_cancel_right h2)

/-- Claim C8 counterexample: the same provider data rendered on two different
days gives byte-different reports — the analysis-date slot (fed from
`datetime.now()`, which is not a pipeline input) changes the text. -/
theorem report_date_counterexample :
    generate_comprehensive_report_model sample_date_a sample_slot sample_slot
        sample_slot sample_slot sample_slot sample_slot sample_slot sample_slot ≠
      generate_comprehensive_report_model sample_date_b sample_slot sample_slot
        sample_slot sample_slot sample_slot sample_slot sample_slot sample_slot := by
  decide

/-- Claim C8 (amended): the report text is a deterministic function of the
provider inputs TOGETHER WITH the current date (and the randomly sampled
forecast): for fixed slot values, two renderings are byte-identical exactly
when their analysis-date strings coincide.  In particular the pipeline is not
a function of the validated provider data alone, since `datetime.now()` (and
`np.random` in the forecast generation) enters each run. -/
theorem report_determined_by_inputs_and_date (d1 d2 location_address
    coordinates feasibility_score system_tier investment savings
    payback_years rest : String) :
    generate_comprehensive_report_model d1 location_address coordinates
        feasibility_score system_tier investment savings payback_years rest =
      generate_comprehensive_report_model d2 location_address coordinates
        feasibility_score system_tier investment savings payback_years rest ↔
      d1 = d2 := by
  constructor
  · intro h
    simp only [generate_comprehensive_report_model, String.append_assoc] at h
    exact str_cancel_right _
      (str_cancel_left _ (str_cancel_left _ (str_cancel_left _ h)))
  · intro h
    rw [h]

end WaterHarvesting
